import Mathlib

/-!
Shallow embedding of the `document_analyser` package
(src/collectors/documents/src/document_analyser/): the prompt builders
(prompts.py), the evidence analyser (extractor.py) and the evidence store
payload builder and client (evidence_store.py), together with theorems
checking the specified contracts against the embedded code.

Python values flowing through the analyser are JSON-shaped; we model them
with an explicit `Json` inductive (numbers as `Int`; float replies are out
of scope for every property checked here).  Python exceptions are modelled
with `Except PyErr`.  The LLM gateway and `json.loads` are external
collaborators and are passed in as function parameters (`chat`,
`jsonLoads`), as is the HTTP transport of the store client.
-/

namespace DocAnalyser

/-- JSON values as returned by Python `json.loads`. -/
inductive Json where
  | null
  | bool (b : Bool)
  | num (n : Int)
  | str (s : String)
  | arr (xs : List Json)
  | obj (kvs : List (String × Json))
deriving Repr

/-- Python exceptions raised by the embedded code. -/
inductive PyErr where
  | nameError (n : String)
  | attributeError (attr : String)
  | zeroDivisionError
  | valueError (msg : String)
  | evidenceStoreError (msg : String)
  | jsonDecodeError
deriving Repr, DecidableEq

/-- `v is None`. -/
def isNull : Json → Bool
  | .null => true
  | _ => false

/-- Python `v in (None, {}, [])` as used by `_strip_none`
(evidence_store.py:63,65): only `None`, an empty dict and an empty list
compare equal to one of the three sentinels. -/
def isEmptyVal : Json → Bool
  | .null => true
  | .obj [] => true
  | .arr [] => true
  | _ => false

/-- Python truthiness of a JSON-shaped value. -/
def truthy : Json → Bool
  | .null => false
  | .bool b => b
  | .num n => n != 0
  | .str s => s != ""
  | .arr xs => !xs.isEmpty
  | .obj kvs => !kvs.isEmpty

/-- `dict.get` returns `None` for a missing key; this folds the `Option`
from a lookup back into the value domain. -/
def optToJson : Option Json → Json
  | some v => v
  | none => .null

/-- Python `a or b` on JSON-shaped values. -/
def jsonOr (a b : Json) : Json :=
  if truthy a then a else b

/-- First-match lookup in a JSON object's entry list (Python dicts have
unique keys, so first match equals the dict lookup). -/
def lookupJ : List (String × Json) → String → Option Json
  | [], _ => none
  | (k', v) :: rest, k => if k' = k then some v else lookupJ rest k

/-- Total object lookup: `none` when the value is not an object or the key
is absent. -/
def jGetOpt (j : Json) (k : String) : Option Json :=
  match j with
  | .obj kvs => lookupJ kvs k
  | _ => none

/-- Follow a path of keys through nested objects. -/
def jWalk : Json → List String → Option Json
  | j, [] => some j
  | j, k :: ks =>
    match jGetOpt j k with
    | some v => jWalk v ks
    | none => none

/-- Python `value.get(k)`: raises `AttributeError` when `value` is not a
dict (e.g. when `json.loads` returned a list or a scalar). -/
def pyGet (j : Json) (k : String) : Except PyErr (Option Json) :=
  match j with
  | .obj kvs => .ok (lookupJ kvs k)
  | _ => .error (.attributeError "get")

/-- Python `s or default` for an optional string attribute: the default is
used when the attribute is absent, `None` or the empty string (all falsy). -/
def pyStrOr (o : Option String) (d : String) : String :=
  match o with
  | some s => if s = "" then d else s
  | none => d

/-- Python `repr` of a string: single-quoted, double-quoted when the string
contains a single quote but no double quote (escape insertion inside the
string is not modelled; no property proved here depends on it). -/
def pyStrRepr (s : String) : String :=
  if s.contains (Char.ofNat 39) && !(s.contains (Char.ofNat 34)) then
    "\"" ++ s ++ "\""
  else
    "\x27" ++ s ++ "\x27"

mutual
/-- Python `repr` of a JSON-shaped value (used by f-string interpolation of
dicts and lists). -/
def pyRepr : Json → String
  | .null => "None"
  | .bool true => "True"
  | .bool false => "False"
  | .num n => toString n
  | .str s => pyStrRepr s
  | .arr xs => "[" ++ pyReprList xs ++ "]"
  | .obj kvs => "\x7b" ++ pyReprObj kvs ++ "\x7d"

def pyReprList : List Json → String
  | [] => ""
  | [x] => pyRepr x
  | x :: xs => pyRepr x ++ ", " ++ pyReprList xs

def pyReprObj : List (String × Json) → String
  | [] => ""
  | [(k, v)] => pyStrRepr k ++ ": " ++ pyRepr v
  | (k, v) :: kvs => pyStrRepr k ++ ": " ++ pyRepr v ++ ", " ++ pyReprObj kvs
end

/-- Python `str()` / f-string conversion of a JSON-shaped value. -/
def pyStr : Json → String
  | .str s => s
  | v => pyRepr v

/-- A JSON-shaped value used as a dict key.  String values are used as is;
for non-string keys (outside the JSON-serialisable range of the payloads)
our string-keyed object model falls back to the value's repr. -/
def pyKeyStr : Json → String
  | .str s => s
  | v => pyRepr v

/-- Python `s.lstrip(".")`. -/
def pyLstripDot (s : String) : String :=
  String.mk (s.toList.dropWhile (fun c => c = Char.ofNat 46))

/-- Python `s.rstrip("/")`. -/
def pyRstripSlash (s : String) : String :=
  String.mk ((s.toList.reverse.dropWhile (fun c => c = Char.ofNat 47)).reverse)

/-- `_parse_bool` (extractor.py:82-91): booleans pass through; recognised
string tokens (case-insensitive, stripped) map to a verdict; anything else
is `None`. -/
def parse_bool : Json → Option Bool
  | .bool b => some b
  | .str s =>
    let n := s.trim.toLower
    if n == "true" || n == "yes" || n == "y" || n == "1" || n == "fulfilled" then
      some true
    else if n == "false" || n == "no" || n == "n" || n == "0" || n == "unfulfilled"
        || n == "not fulfilled" then
      some false
    else
      none
  | _ => none

/-- Python `a or b` on `Optional[bool]` operands: `True` is the only truthy
value, so a `False` (or `None`) left operand falls through to the right. -/
def pyOrOpt (a b : Option Bool) : Option Bool :=
  if a = some true then a else b

/-- extractor.py:105-107: `_parse_bool(..) or _parse_bool(..)` followed by
`if fulfilled is None: fulfilled = False`. -/
def fulfilledOf (a b : Option Bool) : Bool :=
  (pyOrOpt a b).getD false

/-- One chat message (`{"role": ..., "content": ...}`). -/
structure Message where
  role : String
  content : String
deriving Repr, DecidableEq

/-- The slice of `pathlib.Path` the core consumes: `str(path)`, `path.name`
and `path.suffix`.  Paths are built by the out-of-scope loader, so their
derived attributes enter the core as data. -/
structure PyPath where
  str : String
  name : String
  suffix : String
deriving Repr, DecidableEq

/-- loaders.Document: `path` plus decoded `content`; `name` is the path's
final component. -/
structure Document where
  path : PyPath
  content : String
deriving Repr, DecidableEq

def Document.name (d : Document) : String := d.path.name

/-- requirements.RequirementPrompt (requirements.py:6-12). -/
structure RequirementPrompt where
  id : String
  name : String
  prompt : String
  resource_type : String := "genericDocument"
  response_field_name : Option String := none
deriving Repr, DecidableEq

/-- The duck-typed `requirement` argument of
`prompts.build_requirement_messages`, which reads `name`,
`response_field_name` and `response_schema` via `getattr` with defaults:
`none` models an absent attribute. -/
structure ReqObj where
  id : String
  prompt : String
  name : Option String := none
  response_field_name : Option String := none
  response_schema : Option Json := none
deriving Repr

/-- A `RequirementPrompt` seen through the duck-typed interface: all its
attributes exist. -/
def RequirementPrompt.toObj (r : RequirementPrompt) : ReqObj :=
  { id := r.id, prompt := r.prompt, name := some r.name,
    response_field_name := r.response_field_name, response_schema := none }

/-- extractor.AnalysisResult (extractor.py:13-17). -/
structure AnalysisResult where
  data : Json
  raw_response : String
  sources : List String
deriving Repr

/-- Python dict insertion: overriding an existing key keeps its original
position, a fresh key is appended. -/
def dictInsert (kvs : List (String × Json)) (k : String) (v : Json) :
    List (String × Json) :=
  if kvs.any (fun kv => kv.1 = k) then
    kvs.map (fun kv => if kv.1 = k then (k, v) else kv)
  else
    kvs ++ [(k, v)]

/-- A Python dict literal evaluated left to right (later duplicate keys
override earlier ones in place). -/
def pyDictLit (entries : List (String × Json)) : List (String × Json) :=
  entries.foldl (fun acc kv => dictInsert acc kv.1 kv.2) []

/-- loaders.concatenate_documents (loaders.py:69-75). -/
def concatenate_documents (documents : List Document) : String :=
  (String.intercalate "\n"
    (documents.map
      (fun doc => "### Document: " ++ doc.name ++ "\n" ++ doc.content.trim ++ "\n"))).trim

/-- `", ".join(doc.name for doc in documents)` (extractor.py:46,79). -/
def joinNames (documents : List Document) : String :=
  String.intercalate ", " (documents.map Document.name)

/-- prompts.build_messages (prompts.py:6-46).  The function assembles
`user_instructions`, binds a local `system_prompt` string literal, and then
evaluates `SYSTEM_PROMPT.format(max_items=max_items)` (prompts.py:41).  No
global `SYSTEM_PROMPT` is defined anywhere in the module, so every call
raises `NameError` at that line before returning. -/
def build_messages (document_text : String) (source_name : Option String := none)
    (focus : Option String := none) (max_items : Int := 8) :
    Except PyErr (List Message) :=
  let context_name := pyStrOr source_name "document"
  let user_instructions :=
    "Source: " ++ context_name ++ ".\n\n"
      ++ (match focus with
          | some f => if f = "" then "" else "Focus areas provided by user: " ++ f ++ "\n\n"
          | none => "")
      ++ "Extract evidence and return the JSON object described in the system message.\n"
      ++ "Only include claims supported by the text."
  let _ := user_instructions
  let _ := document_text
  let _ := max_items
  .error (.nameError "SYSTEM_PROMPT")

/-- The default `schema_hint` dict of `build_requirement_messages`
(prompts.py:57-63); its keys go through Python dict-literal semantics since
`field_name` is dynamic. -/
def defaultSchema (id field_name : String) : Json :=
  .obj (pyDictLit
    [("requirementId", .str id),
     (field_name, .bool true),
     ("snippet", .str "Verbatim quote or text excerpt proving the requirement"),
     ("citation", .str "Page number, e.g., \x27Page 3\x27 (empty if unknown)"),
     ("confidence", .str "high|medium|low")])

/-- prompts.build_requirement_messages (prompts.py:49-82). -/
def build_requirement_messages (document_text : String) (requirement : ReqObj)
    (source_name : Option String := none) : List Message :=
  let context_name := pyStrOr source_name "document"
  let field_name := pyStrOr requirement.response_field_name "requirementMet"
  let schema_hint :=
    match requirement.response_schema with
    | some sc => jsonOr sc (defaultSchema requirement.id field_name)
    | none => defaultSchema requirement.id field_name
  let system_prompt :=
    "You are Document-Analyser. Check if the document contains the required information.\n"
      ++ "Return a JSON object (not an array) with these fields:\n"
      ++ pyStr schema_hint ++ "\n"
      ++ "Use camelCase keys. Do not include markdown. Set the boolean field to true if the document contains the required information, otherwise false. "
      ++ "Snippet must be the quote/excerpt you used. "
      ++ "Citation must be the page number (e.g., \"Page 2\") if available, otherwise empty. "
      ++ "If no evidence exists, set the boolean field to false, snippet and citation to empty strings, and confidence to \"low\"."
  let user_prompt :=
    "Source: " ++ context_name ++ ".\n"
      ++ "Requirement: " ++ (requirement.name.getD requirement.id)
      ++ " (" ++ requirement.id ++ ").\n"
      ++ "Instruction: " ++ requirement.prompt ++ "\n\n"
      ++ "Return only the JSON object."
  [{ role := "system", content := system_prompt },
   { role := "user", content := user_prompt ++ "\n\n" ++ document_text }]

/-- The evidence item dict appended for one requirement when the decoded
reply is the object `kvs` (extractor.py:108-120), with the `parsed.get`
calls resolved to lookups in `kvs`. -/
def stepItem (kvs : List (String × Json)) (r : RequirementPrompt) : Json :=
  let field_name := pyStrOr r.response_field_name "requirementMet"
  Json.obj
    [("title", .str r.name),
     ("evidence", jsonOr (optToJson (lookupJ kvs "statement"))
        (jsonOr (optToJson (lookupJ kvs "evidence")) (.str ""))),
     ("snippet", jsonOr (optToJson (lookupJ kvs "snippet")) (.str "")),
     ("citation", jsonOr (optToJson (lookupJ kvs "citation")) (.str "")),
     ("fulfilled", .bool (fulfilledOf (parse_bool (optToJson (lookupJ kvs field_name)))
        (parse_bool (optToJson (lookupJ kvs "fulfilled"))))),
     ("responseField", .str field_name),
     ("confidence", jsonOr (optToJson (lookupJ kvs "confidence")) (.str "low")),
     ("requirementId", .str r.id),
     ("resourceType", .str r.resource_type)]

/-- The body of the per-requirement loop of
`DocumentAnalyser.analyse_requirements` (extractor.py:93-120): build the
prompt, call the gateway, decode the reply (decode failure degrades to an
empty dict), coerce the verdict, assemble the evidence item dict.  A reply
that decodes to a non-dict JSON value makes `parsed.get` raise
`AttributeError` at the first field access. -/
def requirementStep (chat : List Message → String) (jsonLoads : String → Option Json)
    (merged_text source_name : String) (requirement : RequirementPrompt) :
    Except PyErr Json :=
  let messages := build_requirement_messages merged_text requirement.toObj (some source_name)
  let raw_response := chat messages
  let parsed := (jsonLoads raw_response).getD (Json.obj [])
  let field_name := pyStrOr requirement.response_field_name "requirementMet"
  match pyGet parsed field_name with
  | .error e => .error e
  | .ok v1 =>
    match pyGet parsed "fulfilled" with
    | .error e => .error e
    | .ok v2 =>
      let fulfilled := fulfilledOf (parse_bool (optToJson v1)) (parse_bool (optToJson v2))
      match pyGet parsed "statement" with
      | .error e => .error e
      | .ok v3 =>
        match pyGet parsed "evidence" with
        | .error e => .error e
        | .ok v4 =>
          match pyGet parsed "snippet" with
          | .error e => .error e
          | .ok v5 =>
            match pyGet parsed "citation" with
            | .error e => .error e
            | .ok v6 =>
              match pyGet parsed "confidence" with
              | .error e => .error e
              | .ok v7 =>
                .ok (Json.obj
                  [("title", .str requirement.name),
                   ("evidence", jsonOr (optToJson v3) (jsonOr (optToJson v4) (.str ""))),
                   ("snippet", jsonOr (optToJson v5) (.str "")),
                   ("citation", jsonOr (optToJson v6) (.str "")),
                   ("fulfilled", .bool fulfilled),
                   ("responseField", .str field_name),
                   ("confidence", jsonOr (optToJson v7) (.str "low")),
                   ("requirementId", .str requirement.id),
                   ("resourceType", .str requirement.resource_type)])

/-- The `for requirement in requirements` loop of `analyse_requirements`,
accumulating evidence items in order; the first raised exception aborts the
whole call. -/
def reqLoop (chat : List Message → String) (jsonLoads : String → Option Json)
    (merged_text source_name : String) :
    List RequirementPrompt → Except PyErr (List Json)
  | [] => .ok []
  | r :: rest =>
    match requirementStep chat jsonLoads merged_text source_name r with
    | .error e => .error e
    | .ok item =>
      match reqLoop chat jsonLoads merged_text source_name rest with
      | .error e => .error e
      | .ok items => .ok (item :: items)

/-- DocumentAnalyser.analyse_requirements (extractor.py:70-122). -/
def analyse_requirements (chat : List Message → String)
    (jsonLoads : String → Option Json) (documents : List Document)
    (requirements : List RequirementPrompt) : Except PyErr (List Json) :=
  if documents.isEmpty then
    .error (.valueError "No documents provided for analysis.")
  else
    reqLoop chat jsonLoads (concatenate_documents documents) (joinNames documents)
      requirements

/-- DocumentAnalyser.analyse (extractor.py:36-68): general mode.  The
degraded dict of the `json.JSONDecodeError` handler (extractor.py:58-65) is
assembled when the reply fails to decode, but the `build_messages` call at
extractor.py:47 raises `NameError` first on every run. -/
def analyse (chat : List Message → String) (jsonLoads : String → Option Json)
    (documents : List Document) (focus : Option String := none)
    (max_items : Int := 8) : Except PyErr AnalysisResult :=
  if documents.isEmpty then
    .error (.valueError "No documents provided for analysis.")
  else
    let merged_text := concatenate_documents documents
    let source_name := joinNames documents
    match build_messages merged_text (some source_name) focus max_items with
    | .error e => .error e
    | .ok messages =>
      let raw_response := chat messages
      let parsed :=
        match jsonLoads raw_response with
        | some p => p
        | none =>
          Json.obj
            [("document_summary", .str ""),
             ("evidence", .arr []),
             ("gaps", .arr []),
             ("parse_error", .str "Response was not valid JSON.")]
      .ok { data := parsed, raw_response := raw_response,
            sources := documents.map (fun d => d.path.str) }

/-- evidence_store.EvidenceStoreConfig (evidence_store.py:19-27). -/
structure EvidenceStoreConfig where
  base_url : String
  token_endpoint : String
  client_id : String
  client_secret : String
  tool_id : String
  target_of_evaluation_id : String
  evidence_path : String := "/v1/evidence_store/evidence"
deriving Repr, DecidableEq

/-- The `evidence_url` property (evidence_store.py:55-57). -/
def evidence_url (cfg : EvidenceStoreConfig) : String :=
  pyRstripSlash cfg.base_url ++ cfg.evidence_path

mutual
/-- evidence_store._strip_none (evidence_store.py:60-66).  Dict entries are
filtered on their ORIGINAL value (`if v not in (None, {}, [])` tests `v`
before the recursive call), while list elements are filtered on their
already-stripped value (the generator expression strips first). -/
def strip_none : Json → Json
  | .obj kvs => .obj (stripObj kvs)
  | .arr xs => .arr (stripArr xs)
  | v => v

def stripObj : List (String × Json) → List (String × Json)
  | [] => []
  | (k, v) :: rest =>
    if isEmptyVal v then stripObj rest else (k, strip_none v) :: stripObj rest

def stripArr : List Json → List Json
  | [] => []
  | v :: rest =>
    let sv := strip_none v
    if isEmptyVal sv then stripArr rest else sv :: stripArr rest
end

mutual
/-- The property claimed of the payloads: no value anywhere in the tree is
null, an empty mapping or an empty sequence. -/
def deepPruned : Json → Bool
  | .obj kvs => deepPrunedObj kvs
  | .arr xs => deepPrunedArr xs
  | _ => true

def deepPrunedObj : List (String × Json) → Bool
  | [] => true
  | (_, v) :: rest => !isEmptyVal v && deepPruned v && deepPrunedObj rest

def deepPrunedArr : List Json → Bool
  | [] => true
  | v :: rest => !isEmptyVal v && deepPruned v && deepPrunedArr rest
end

mutual
/-- The property `_strip_none` actually establishes: no null anywhere, and
no element of any sequence is null/empty — but an object member may be an
empty object or sequence when the emptiness arose from pruning its own
members. -/
def onePassPruned : Json → Bool
  | .obj kvs => onePassPrunedObj kvs
  | .arr xs => onePassPrunedArr xs
  | _ => true

def onePassPrunedObj : List (String × Json) → Bool
  | [] => true
  | (_, v) :: rest => !isNull v && onePassPruned v && onePassPrunedObj rest

def onePassPrunedArr : List Json → Bool
  | [] => true
  | v :: rest => !isEmptyVal v && onePassPruned v && onePassPrunedArr rest
end

/-- The `evidence_items` expression of build_evidence_payloads
(evidence_store.py:75): `result.data.get("evidence") or []` — raises
`AttributeError` when `data` is not a dict. -/
def evidenceItems (result : AnalysisResult) : Except PyErr Json :=
  match pyGet result.data "evidence" with
  | .error e => .error e
  | .ok g => .ok (jsonOr (optToJson g) (Json.arr []))

/-- One iteration of the payload loop before pruning
(evidence_store.py:81-116).  `uuid` and `ts` supply the fresh
`str(uuid4())` / `datetime.now(...).isoformat()` values for the item at a
given index.  With an empty document list, `documents[idx % len(documents)]`
raises `ZeroDivisionError` (`idx % 0`). -/
def evidenceBody (uuid ts : Nat → String) (documents : List Document)
    (config : EvidenceStoreConfig) (idx : Nat) (item : Json) :
    Except PyErr Json :=
  match documents with
  | [] => .error .zeroDivisionError
  | d :: ds =>
    let doc := (d :: ds).get ⟨idx % (d :: ds).length, Nat.mod_lt _ (Nat.succ_pos _)⟩
    match pyGet item "responseField" with
    | .error e => .error e
    | .ok rfv =>
      let response_field := pyKeyStr (jsonOr (optToJson rfv) (.str "requirementMet"))
      match pyGet item "fulfilled" with
      | .error e => .error e
      | .ok fv =>
        let fulfilled := optToJson fv
        match pyGet item "snippet" with
        | .error e => .error e
        | .ok sv =>
          match pyGet item "citation" with
          | .error e => .error e
          | .ok cv =>
            match pyGet item "evidence" with
            | .error e => .error e
            | .ok ev =>
              match pyGet item "statement" with
              | .error e => .error e
              | .ok stv =>
                let snippet :=
                  jsonOr (optToJson sv)
                    (jsonOr (optToJson cv)
                      (jsonOr (optToJson ev) (jsonOr (optToJson stv) (.str ""))))
                let citation := jsonOr (optToJson cv) (.str "")
                let raw : Json :=
                  if truthy citation then
                    .str (if truthy snippet then
                            pyStr snippet ++ "\nCitation: " ++ pyStr citation
                          else
                            "Citation: " ++ pyStr citation)
                  else snippet
                match pyGet item "title" with
                | .error e => .error e
                | .ok tv =>
                  let description := jsonOr (optToJson tv) (.str "Document evidence")
                  .ok (Json.obj
                    [("id", .str (uuid idx)),
                     ("timestamp", .str (ts idx)),
                     ("targetOfEvaluationId", .str config.target_of_evaluation_id),
                     ("toolId", .str config.tool_id),
                     ("resource", .obj
                       [("genericDocument", .obj (pyDictLit
                         [("id", .str (config.tool_id ++ ":document:" ++ toString idx)),
                          ("name", .str doc.name),
                          ("description", description),
                          ("filetype", .str (pyLstripDot doc.path.suffix)),
                          ("dataLocation", .obj
                            [("localDataLocation", .obj [("path", .str doc.path.str)])]),
                          (response_field, fulfilled),
                          ("raw", raw)]))]),
                     ("experimentalRelatedResourceIds", .arr [])])

/-- The evidence body built for the object item `ikvs` and the wrapped-in
document `doc`, with the `item.get` calls resolved to lookups in `ikvs`
(evidence_store.py:83-116). -/
def bodyOf (uuid ts : Nat → String) (doc : Document) (config : EvidenceStoreConfig)
    (idx : Nat) (ikvs : List (String × Json)) : Json :=
  let response_field :=
    pyKeyStr (jsonOr (optToJson (lookupJ ikvs "responseField")) (.str "requirementMet"))
  let fulfilled := optToJson (lookupJ ikvs "fulfilled")
  let snippet :=
    jsonOr (optToJson (lookupJ ikvs "snippet"))
      (jsonOr (optToJson (lookupJ ikvs "citation"))
        (jsonOr (optToJson (lookupJ ikvs "evidence"))
          (jsonOr (optToJson (lookupJ ikvs "statement")) (.str ""))))
  let citation := jsonOr (optToJson (lookupJ ikvs "citation")) (.str "")
  let raw : Json :=
    if truthy citation then
      .str (if truthy snippet then
              pyStr snippet ++ "\nCitation: " ++ pyStr citation
            else
              "Citation: " ++ pyStr citation)
    else snippet
  let description := jsonOr (optToJson (lookupJ ikvs "title")) (.str "Document evidence")
  Json.obj
    [("id", .str (uuid idx)),
     ("timestamp", .str (ts idx)),
     ("targetOfEvaluationId", .str config.target_of_evaluation_id),
     ("toolId", .str config.tool_id),
     ("resource", .obj
       [("genericDocument", .obj (pyDictLit
         [("id", .str (config.tool_id ++ ":document:" ++ toString idx)),
          ("name", .str doc.name),
          ("description", description),
          ("filetype", .str (pyLstripDot doc.path.suffix)),
          ("dataLocation", .obj
            [("localDataLocation", .obj [("path", .str doc.path.str)])]),
          (response_field, fulfilled),
          ("raw", raw)]))]),
     ("experimentalRelatedResourceIds", .arr [])]

/-- `payloads.append(_strip_none(evidence_body))` (evidence_store.py:117). -/
def payloadFor (uuid ts : Nat → String) (documents : List Document)
    (config : EvidenceStoreConfig) (idx : Nat) (item : Json) :
    Except PyErr Json :=
  match evidenceBody uuid ts documents config idx item with
  | .error e => .error e
  | .ok body => .ok (strip_none body)

/-- The `for idx, item in enumerate(evidence_items)` loop
(evidence_store.py:81-117). -/
def buildLoop (uuid ts : Nat → String) (documents : List Document)
    (config : EvidenceStoreConfig) : Nat → List Json → Except PyErr (List Json)
  | _, [] => .ok []
  | idx, item :: rest =>
    match payloadFor uuid ts documents config idx item with
    | .error e => .error e
    | .ok p =>
      match buildLoop uuid ts documents config (idx + 1) rest with
      | .error e => .error e
      | .ok ps => .ok (p :: ps)

/-- evidence_store.build_evidence_payloads (evidence_store.py:69-119). -/
def build_evidence_payloads (uuid ts : Nat → String) (result : AnalysisResult)
    (documents : List Document) (config : EvidenceStoreConfig) :
    Except PyErr (List Json) :=
  match evidenceItems result with
  | .error e => .error e
  | .ok (.arr xs) => buildLoop uuid ts documents config 0 xs
  | .ok _ => .ok []

/-- The effective verdict field name of an evidence item as computed at
evidence_store.py:83 (`item.get("responseField") or "requirementMet"`). -/
def respFieldOf (item : Json) : String :=
  pyKeyStr (jsonOr (optToJson (jGetOpt item "responseField")) (.str "requirementMet"))

/-- Extract the value at a key path inside payload number `i` of a payload
build's outcome. -/
def payloadFieldAt (e : Except PyErr (List Json)) (i : Nat) (path : List String) :
    Option Json :=
  match e with
  | .ok ps =>
    match ps.get? i with
    | some p => jWalk p path
    | none => none
  | .error _ => none

/-- An HTTP response as seen through `httpx`: status, text body, and the
result of `response.json()` (`none` when the body is not valid JSON, in
which case `.json()` raises). -/
structure HttpResponse where
  status_code : Nat
  text : String
  jsonBody : Option Json
deriving Repr

/-- Outcome of one `httpx` POST: a response, or a raised `httpx.HTTPError`
carrying a message (transport failure). -/
def HttpOutcome := Except String HttpResponse

/-- The HTTP calls a store-client operation performs, in order. -/
inductive HttpCall where
  | tokenRequest (url client_id client_secret : String)
  | evidencePost (url bearer : String) (payload : Json)
deriving Repr

/-- The mutable state of an EvidenceStoreClient: the cached `self._token`
(evidence_store.py:149).  The token is stored as the JSON value taken from
the token response. -/
structure ClientState where
  token : Option Json

/-- The fetch path of `_get_token` (evidence_store.py:155-175): POST to the
token endpoint with client-credentials form body and basic auth, translate
transport failures, HTTP ≥ 400 and a missing/falsy `access_token` into
`EvidenceStoreError`; a non-JSON 2xx body makes `response.json()` raise. -/
def get_token_fetch (cfg : EvidenceStoreConfig) (st : ClientState)
    (tokenResp : HttpOutcome) :
    Except PyErr Json × ClientState × List HttpCall :=
  let call := HttpCall.tokenRequest cfg.token_endpoint cfg.client_id cfg.client_secret
  match tokenResp with
  | .error e =>
    (.error (.evidenceStoreError ("OAuth token request failed: " ++ e)), st, [call])
  | .ok r =>
    if 400 ≤ r.status_code then
      (.error (.evidenceStoreError
        ("OAuth token request failed: " ++ toString r.status_code ++ " " ++ r.text)),
       st, [call])
    else
      match r.jsonBody with
      | none => (.error .jsonDecodeError, st, [call])
      | some payload =>
        match pyGet payload "access_token" with
        | .error e => (.error e, st, [call])
        | .ok tokOpt =>
          let token := optToJson tokOpt
          if truthy token then
            (.ok token, { token := some token }, [call])
          else
            (.error (.evidenceStoreError "OAuth token response missing access_token."),
             st, [call])

/-- EvidenceStoreClient._get_token (evidence_store.py:151-175).  Returns the
token, the new client state and the HTTP calls performed.  `tokenResp` is
the transport's answer to the token POST. -/
def get_token (cfg : EvidenceStoreConfig) (st : ClientState)
    (tokenResp : HttpOutcome) :
    Except PyErr Json × ClientState × List HttpCall :=
  match st.token with
  | some t =>
    if truthy t then (.ok t, st, [])
    else get_token_fetch cfg st tokenResp
  | none => get_token_fetch cfg st tokenResp

/-- EvidenceStoreClient.send_evidence (evidence_store.py:177-197).
`evResp` is the transport's answer to the evidence POST; the returned trace
lists the HTTP calls actually performed, in order. -/
def send_evidence (cfg : EvidenceStoreConfig) (st : ClientState)
    (tokenResp evResp : HttpOutcome) (payload : Json) :
    Except PyErr Json × ClientState × List HttpCall :=
  match get_token cfg st tokenResp with
  | (.error e, st', calls) => (.error e, st', calls)
  | (.ok token, st', calls) =>
    let call := HttpCall.evidencePost (evidence_url cfg) ("Bearer " ++ pyStr token) payload
    match evResp with
    | .error e =>
      (.error (.evidenceStoreError
        ("Failed to send evidence to " ++ evidence_url cfg ++ ": " ++ e)),
       st', calls ++ [call])
    | .ok r =>
      if 400 ≤ r.status_code then
        (.error (.evidenceStoreError
          ("Evidence store rejected payload (" ++ toString r.status_code ++ ") at "
            ++ evidence_url cfg ++ ": " ++ r.text)),
         st', calls ++ [call])
      else if r.status_code = 204 then
        (.ok (.obj []), st', calls ++ [call])
      else
        match r.jsonBody with
        | some j => (.ok j, st', calls ++ [call])
        | none => (.error .jsonDecodeError, st', calls ++ [call])

/-- A decoded reply in the range `json.loads` is assumed to produce under
the provider's JSON mode: either a decode failure or a JSON object. -/
def objOrNone : Option Json → Bool
  | none => true
  | some (.obj _) => true
  | some _ => false

/-- The `fulfilled` field of the first evidence item of an
`analyse_requirements` outcome. -/
def firstFulfilled (e : Except PyErr (List Json)) : Option Json :=
  match e with
  | .ok (item :: _) => jGetOpt item "fulfilled"
  | _ => none

/-- Every payload of a successful payload build satisfies the claimed
full-pruning property (vacuously true on a raised exception, which returns
no payloads). -/
def allPayloadsDeepPruned (e : Except PyErr (List Json)) : Bool :=
  match e with
  | .ok ps => ps.all deepPruned
  | .error _ => true

/-- Every payload of a successful payload build satisfies the one-pass
pruning property. -/
def allPayloadsOnePass (e : Except PyErr (List Json)) : Bool :=
  match e with
  | .ok ps => ps.all onePassPruned
  | .error _ => true

/-- Every evidence item of a successful `analyse_requirements` outcome
carries a boolean `fulfilled` value. -/
def allFulfilledBool (e : Except PyErr (List Json)) : Bool :=
  match e with
  | .ok items =>
    items.all (fun it =>
      match jGetOpt it "fulfilled" with
      | some (.bool _) => true
      | _ => false)
  | .error _ => true

/-- Every evidence item of a successful `analyse_requirements` outcome has
`fulfilled = false`. -/
def allFulfilledFalse (e : Except PyErr (List Json)) : Bool :=
  match e with
  | .ok items =>
    items.all (fun it =>
      match jGetOpt it "fulfilled" with
      | some (.bool b) => !b
      | _ => false)
  | .error _ => true

/-- An `analyse_requirements` outcome is a successful list with exactly one
item per input requirement, in input order: item `i` carries requirement
`i`'s id in `requirementId` and its name in `title`. -/
def idsTitlesMatch (e : Except PyErr (List Json)) (reqs : List RequirementPrompt) :
    Bool :=
  match e with
  | .ok items =>
    items.length == reqs.length &&
      (items.zip reqs).all (fun p =>
        (match jGetOpt p.1 "requirementId" with
         | some (.str s) => s == p.2.id
         | _ => false) &&
        (match jGetOpt p.1 "title" with
         | some (.str s) => s == p.2.name
         | _ => false))
  | .error _ => false

/-- Did a payload build succeed (no exception)? -/
def isOkE (e : Except PyErr (List Json)) : Bool :=
  match e with
  | .ok _ => true
  | .error _ => false

/-- Did a store operation fail with an `EvidenceStoreError`? -/
def isStoreError (e : Except PyErr Json) : Bool :=
  match e with
  | .error (.evidenceStoreError _) => true
  | _ => false

/-- The token-request outcomes the claim lists as authentication failures:
a transport failure, an HTTP status ≥ 400, or a JSON body whose
`access_token` field is missing (or empty — the code treats any falsy token
as missing). -/
def tokenAuthFailure : HttpOutcome → Prop
  | .error _ => True
  | .ok r =>
    400 ≤ r.status_code ∨
      ∃ kvs, r.jsonBody = some (.obj kvs) ∧
        truthy (optToJson (lookupJ kvs "access_token")) = false

/-! ## Theorems -/

/-- C1: the claim states that the prompt builders never throw.
`build_requirement_messages` is total, but `build_messages` evaluates the
undefined module global `SYSTEM_PROMPT` (prompts.py:41) and therefore
raises `NameError` on every input, before returning any message pair. -/
theorem build_messages_always_raises_name_error
    (document_text : String) (source_name focus : Option String) (max_items : Int) :
    build_messages document_text source_name focus max_items
      = .error (.nameError "SYSTEM_PROMPT") := by
  rfl

/-- C7: the claim states that `analyse` survives a non-JSON model reply by
returning a degraded result.  In the code, `analyse` calls `build_messages`
(extractor.py:47), which raises `NameError` on every call, so for every
non-empty document list and every gateway/decoder behaviour — including
any unparsable reply — `analyse` raises instead of returning a result. -/
theorem analyse_always_raises_name_error
    (chat : List Message → String) (jsonLoads : String → Option Json)
    (d : Document) (ds : List Document) (focus : Option String) (max_items : Int) :
    analyse chat jsonLoads (d :: ds) focus max_items
      = .error (.nameError "SYSTEM_PROMPT") := by
  rfl

/-- C2 counterexample: a parsed reply whose configured field
(`businessContinuityPolicy`) holds the boolean `false` while the generic
`fulfilled` field holds `true` yields an item with `fulfilled = true`: the
Python `or` at extractor.py:105 treats the parsed `False` as absence and
falls through to the generic field, so the claimed "false regardless of the
generic field" is violated. -/
theorem verdict_false_configured_field_overridden_cex :
    firstFulfilled (analyse_requirements (fun _ => "{}")
        (fun _ => some (.obj [("businessContinuityPolicy", .bool false),
                              ("fulfilled", .bool true)]))
        [⟨⟨"/tmp/a.txt", "a.txt", ".txt"⟩, "hello"⟩]
        [{ id := "E83", name := "Business continuity", prompt := "p",
           response_field_name := some "businessContinuityPolicy" }])
      = some (.bool true) ∧
    some (Json.bool true) ≠ some (Json.bool false) := by
  exact ⟨rfl, by simp⟩

/-- C3 counterexample: an evidence item whose `title` is the mapping
`{"a": null}` produces a payload whose `description` is the empty mapping:
`_strip_none` filters dict entries on their pre-pruned values
(evidence_store.py:63), so a mapping that becomes empty only after its own
members are pruned survives, contradicting the claimed full pruning. -/
theorem payload_pruning_not_deep_cex :
    allPayloadsDeepPruned (build_evidence_payloads (fun _ => "u") (fun _ => "t")
        ⟨.obj [("evidence", .arr [.obj [("title", .obj [("a", .null)])]])], "", []⟩
        [⟨⟨"/tmp/a.txt", "a.txt", ".txt"⟩, "hello"⟩]
        ⟨"http://b", "http://b/tok", "ci", "cs", "tool", "toe", "/ev"⟩)
      = false ∧
    payloadFieldAt (build_evidence_payloads (fun _ => "u") (fun _ => "t")
        ⟨.obj [("evidence", .arr [.obj [("title", .obj [("a", .null)])]])], "", []⟩
        [⟨⟨"/tmp/a.txt", "a.txt", ".txt"⟩, "hello"⟩]
        ⟨"http://b", "http://b/tok", "ci", "cs", "tool", "toe", "/ev"⟩)
      0 ["resource", "genericDocument", "description"] = some (.obj []) := by
  exact ⟨rfl, rfl⟩

/-- C4 counterexample: an evidence item with a citation (`"Page 3"`) and no
snippet yields `raw = "Page 3\nCitation: Page 3"` rather than the claimed
`"Citation: Page 3"`: the snippet fallback chain (evidence_store.py:85-91)
substitutes the citation for the missing snippet before the merge. -/
theorem raw_merge_citation_only_cex :
    payloadFieldAt (build_evidence_payloads (fun _ => "u") (fun _ => "t")
        ⟨.obj [("evidence", .arr [.obj [("citation", .str "Page 3")]])], "", []⟩
        [⟨⟨"/tmp/a.txt", "a.txt", ".txt"⟩, "hello"⟩]
        ⟨"http://b", "http://b/tok", "ci", "cs", "tool", "toe", "/ev"⟩)
      0 ["resource", "genericDocument", "raw"]
      = some (.str "Page 3\nCitation: Page 3") ∧
    some (Json.str "Page 3\nCitation: Page 3") ≠ some (Json.str "Citation: Page 3") := by
  exact ⟨rfl, by simp⟩

/-- C5 counterexample: with one document and one requirement, a model reply
that is valid JSON but not an object (`"[]"`) makes `analyse_requirements`
raise `AttributeError` (`parsed.get` on a list, extractor.py:105), so no
evidence list of the input's length is returned. -/
theorem analyse_requirements_non_object_reply_cex :
    analyse_requirements (fun _ => "[]")
        (fun s => if s = "[]" then some (.arr []) else none)
        [⟨⟨"/tmp/a.txt", "a.txt", ".txt"⟩, "hello"⟩]
        [{ id := "E83", name := "Business continuity", prompt := "p" }]
      = .error (.attributeError "get") := by
  rfl

/-- C10: with an empty document sequence and at least one evidence item,
`build_evidence_payloads` raises (`idx % len(documents)` is `0 % 0`,
evidence_store.py:82) instead of returning a payload list. -/
theorem build_evidence_payloads_empty_documents_raises
    (uuid ts : Nat → String) (result : AnalysisResult)
    (cfg : EvidenceStoreConfig) (x : Json) (xs : List Json)
    (h : evidenceItems result = .ok (.arr (x :: xs))) :
    build_evidence_payloads uuid ts result [] cfg = .error .zeroDivisionError := by
  simp only [build_evidence_payloads, h]
  rfl

/-- Witness for C10 at a concrete one-item analysis result. -/
theorem build_evidence_payloads_empty_documents_raises_witness :
    evidenceItems ⟨.obj [("evidence", .arr [.obj []])], "", []⟩
        = .ok (.arr [.obj []]) ∧
    build_evidence_payloads (fun _ => "u") (fun _ => "t")
        ⟨.obj [("evidence", .arr [.obj []])], "", []⟩ []
        ⟨"http://b", "http://b/tok", "ci", "cs", "tool", "toe", "/ev"⟩
      = .error .zeroDivisionError := by
  exact ⟨rfl,
    build_evidence_payloads_empty_documents_raises (fun _ => "u") (fun _ => "t")
      ⟨.obj [("evidence", .arr [.obj []])], "", []⟩
      ⟨"http://b", "http://b/tok", "ci", "cs", "tool", "toe", "/ev"⟩
      (.obj []) [] rfl⟩

theorem fulfilledOf_eq_or (a b : Option Bool) :
    fulfilledOf a b = (a.getD false || b.getD false) := by
  cases a with
  | none =>
    cases b with
    | none => rfl
    | some x => cases x <;> rfl
  | some x =>
    cases x with
    | false =>
      cases b with
      | none => rfl
      | some y => cases y <;> rfl
    | true => rfl

theorem requirementStep_obj (chat : List Message → String)
    (jsonLoads : String → Option Json) (m s : String) (r : RequirementPrompt)
    (kvs : List (String × Json))
    (h : (jsonLoads (chat (build_requirement_messages m r.toObj (some s)))).getD
          (Json.obj []) = .obj kvs) :
    requirementStep chat jsonLoads m s r = .ok (stepItem kvs r) := by
  simp only [requirementStep]
  rw [h]
  rfl

theorem stepItem_requirementId (kvs : List (String × Json)) (r : RequirementPrompt) :
    jGetOpt (stepItem kvs r) "requirementId" = some (.str r.id) := rfl

theorem stepItem_title (kvs : List (String × Json)) (r : RequirementPrompt) :
    jGetOpt (stepItem kvs r) "title" = some (.str r.name) := rfl

theorem stepItem_fulfilled (kvs : List (String × Json)) (r : RequirementPrompt) :
    jGetOpt (stepItem kvs r) "fulfilled"
      = some (.bool (fulfilledOf
          (parse_bool (optToJson (lookupJ kvs (pyStrOr r.response_field_name "requirementMet"))))
          (parse_bool (optToJson (lookupJ kvs "fulfilled"))))) := rfl

theorem requirementStep_objOrNone (chat : List Message → String)
    (jsonLoads : String → Option Json) (m s : String) (r : RequirementPrompt)
    (hj : objOrNone (jsonLoads (chat (build_requirement_messages m r.toObj (some s))))
        = true) :
    ∃ kvs, requirementStep chat jsonLoads m s r = .ok (stepItem kvs r) := by
  cases hj0 : jsonLoads (chat (build_requirement_messages m r.toObj (some s))) with
  | none => exact ⟨[], requirementStep_obj chat jsonLoads m s r [] (by rw [hj0]; rfl)⟩
  | some j =>
    cases j with
    | obj kvs => exact ⟨kvs, requirementStep_obj chat jsonLoads m s r kvs (by rw [hj0]; rfl)⟩
    | null => rw [hj0] at hj; exact absurd hj (by simp [objOrNone])
    | bool b => rw [hj0] at hj; exact absurd hj (by simp [objOrNone])
    | num n => rw [hj0] at hj; exact absurd hj (by simp [objOrNone])
    | str s2 => rw [hj0] at hj; exact absurd hj (by simp [objOrNone])
    | arr xs => rw [hj0] at hj; exact absurd hj (by simp [objOrNone])

theorem reqLoop_ids_titles (chat : List Message → String)
    (jsonLoads : String → Option Json) (m s : String)
    (hj : ∀ str, objOrNone (jsonLoads str) = true) :
    ∀ reqs, idsTitlesMatch (reqLoop chat jsonLoads m s reqs) reqs = true := by
  intro reqs
  induction reqs with
  | nil => rfl
  | cons r rest ih =>
    obtain ⟨kvs, hstep⟩ := requirementStep_objOrNone chat jsonLoads m s r (hj _)
    unfold reqLoop
    rw [hstep]
    cases hrest : reqLoop chat jsonLoads m s rest with
    | error e =>
      rw [hrest] at ih
      simp [idsTitlesMatch] at ih
    | ok items =>
      rw [hrest] at ih
      have hgoal : idsTitlesMatch (Except.ok (stepItem kvs r :: items)) (r :: rest) = true := by
        simp only [idsTitlesMatch, List.zip_cons_cons, List.all_cons,
          stepItem_requirementId, stepItem_title] at ih ⊢
        simp only [Bool.and_eq_true] at ih
        rcases ih with ⟨hlen, hall⟩
        simp only [List.length_cons, hall, Bool.and_true]
        have hlen2 : items.length = rest.length := by simpa using hlen
        simp [hlen2]
      exact hgoal

theorem requirementStep_ok_shape (chat : List Message → String)
    (jsonLoads : String → Option Json) (m s : String) (r : RequirementPrompt)
    (item : Json) (h : requirementStep chat jsonLoads m s r = .ok item) :
    ∃ kvs, (jsonLoads (chat (build_requirement_messages m r.toObj (some s)))).getD
        (Json.obj []) = .obj kvs ∧ item = stepItem kvs r := by
  cases hp : (jsonLoads (chat (build_requirement_messages m r.toObj (some s)))).getD
      (Json.obj []) with
  | obj kvs =>
    refine ⟨kvs, rfl, ?_⟩
    have := requirementStep_obj chat jsonLoads m s r kvs hp
    rw [this] at h
    exact (Except.ok.inj h).symm
  | null =>
    simp only [requirementStep] at h; rw [hp] at h; exact Except.noConfusion h
  | bool b =>
    simp only [requirementStep] at h; rw [hp] at h; exact Except.noConfusion h
  | num n =>
    simp only [requirementStep] at h; rw [hp] at h; exact Except.noConfusion h
  | str s2 =>
    simp only [requirementStep] at h; rw [hp] at h; exact Except.noConfusion h
  | arr xs =>
    simp only [requirementStep] at h; rw [hp] at h; exact Except.noConfusion h

theorem reqLoop_mem_step (chat : List Message → String)
    (jsonLoads : String → Option Json) (m s : String) :
    ∀ reqs items, reqLoop chat jsonLoads m s reqs = .ok items →
      ∀ item ∈ items, ∃ r, requirementStep chat jsonLoads m s r = .ok item := by
  intro reqs
  induction reqs with
  | nil =>
    intro items h item hm
    obtain rfl : ([] : List Json) = items := Except.ok.inj h
    exact absurd hm (List.not_mem_nil item)
  | cons r rest ih =>
    intro items h item hm
    unfold reqLoop at h
    cases h1 : requirementStep chat jsonLoads m s r with
    | error e => rw [h1] at h; exact Except.noConfusion h
    | ok item0 =>
      rw [h1] at h
      cases h2 : reqLoop chat jsonLoads m s rest with
      | error e => rw [h2] at h; exact Except.noConfusion h
      | ok items' =>
        rw [h2] at h
        obtain rfl : item0 :: items' = items := Except.ok.inj h
        rcases List.mem_cons.mp hm with h0 | h0
        · exact ⟨r, h0.symm ▸ h1⟩
        · exact ih items' h2 item h0

theorem requirementStep_fulfilled_false (chat : List Message → String)
    (jsonLoads : String → Option Json) (m s : String) (r : RequirementPrompt)
    (item : Json)
    (hamb : ∀ str j, jsonLoads str = some j →
      ∀ k v, jGetOpt j k = some v → parse_bool v = none)
    (h : requirementStep chat jsonLoads m s r = .ok item) :
    jGetOpt item "fulfilled" = some (.bool false) := by
  obtain ⟨kvs, hp, rfl⟩ := requirementStep_ok_shape chat jsonLoads m s r item h
  rw [stepItem_fulfilled]
  have hkvs : ∀ k v, lookupJ kvs k = some v → parse_bool v = none := by
    cases hj0 : jsonLoads (chat (build_requirement_messages m r.toObj (some s))) with
    | none =>
      rw [hj0] at hp
      have hnil : Json.obj [] = Json.obj kvs := hp
      obtain rfl : ([] : List (String × Json)) = kvs := Json.obj.inj hnil
      intro k v hv
      exact absurd hv (by simp [lookupJ])
    | some j =>
      rw [hj0] at hp
      have hj : j = Json.obj kvs := hp
      intro k v hv
      refine hamb _ j hj0 k v ?_
      rw [hj]
      exact hv
  have ha : parse_bool (optToJson (lookupJ kvs
      (pyStrOr r.response_field_name "requirementMet"))) = none := by
    cases hl : lookupJ kvs (pyStrOr r.response_field_name "requirementMet") with
    | none => rfl
    | some v => simpa [optToJson] using hkvs _ v hl
  have hb : parse_bool (optToJson (lookupJ kvs "fulfilled")) = none := by
    cases hl : lookupJ kvs "fulfilled" with
    | none => rfl
    | some v => simpa [optToJson] using hkvs _ v hl
  rw [ha, hb]
  rfl

theorem isNull_strip_none (j : Json) : isNull (strip_none j) = isNull j := by
  cases j <;> rfl

mutual
theorem onePassPruned_strip_none : ∀ j, onePassPruned (strip_none j) = true
  | .null => rfl
  | .bool _ => rfl
  | .num _ => rfl
  | .str _ => rfl
  | .arr xs => by
    have h := onePassPrunedArr_stripArr xs
    simp [strip_none, onePassPruned, h]
  | .obj kvs => by
    have h := onePassPrunedObj_stripObj kvs
    simp [strip_none, onePassPruned, h]

theorem onePassPrunedObj_stripObj : ∀ kvs, onePassPrunedObj (stripObj kvs) = true
  | [] => rfl
  | (k, v) :: rest => by
    have hrest := onePassPrunedObj_stripObj rest
    have hv := onePassPruned_strip_none v
    by_cases h : isEmptyVal v = true
    · simp [stripObj, h, hrest]
    · have hnull : isNull (strip_none v) = false := by
        rw [isNull_strip_none]
        cases v <;> simp_all [isEmptyVal, isNull]
      simp [stripObj, h, onePassPrunedObj, hnull, hv, hrest]

theorem onePassPrunedArr_stripArr : ∀ xs, onePassPrunedArr (stripArr xs) = true
  | [] => rfl
  | v :: rest => by
    have hrest := onePassPrunedArr_stripArr rest
    have hv := onePassPruned_strip_none v
    by_cases h : isEmptyVal (strip_none v) = true
    · simp [stripArr, h, hrest]
    · simp [stripArr, h, onePassPrunedArr, hv, hrest]
end

theorem payloadFor_is_strip (uuid ts : Nat → String) (docs : List Document)
    (cfg : EvidenceStoreConfig) (i : Nat) (item : Json) (p : Json)
    (h : payloadFor uuid ts docs cfg i item = .ok p) :
    ∃ b, p = strip_none b := by
  unfold payloadFor at h
  cases hb : evidenceBody uuid ts docs cfg i item with
  | error e => rw [hb] at h; exact Except.noConfusion h
  | ok b =>
    rw [hb] at h
    exact ⟨b, (Except.ok.inj h).symm⟩

theorem buildLoop_mem (uuid ts : Nat → String) (docs : List Document)
    (cfg : EvidenceStoreConfig) :
    ∀ (n : Nat) (items ps : List Json),
      buildLoop uuid ts docs cfg n items = .ok ps →
      ∀ p ∈ ps, ∃ i item, payloadFor uuid ts docs cfg i item = .ok p := by
  intro n items
  induction items generalizing n with
  | nil =>
    intro ps h p hp
    obtain rfl : ([] : List Json) = ps := Except.ok.inj h
    exact absurd hp (List.not_mem_nil p)
  | cons item rest ih =>
    intro ps h p hp
    rw [buildLoop] at h
    cases h1 : payloadFor uuid ts docs cfg n item with
    | error e => rw [h1] at h; exact Except.noConfusion h
    | ok p0 =>
      rw [h1] at h
      cases h2 : buildLoop uuid ts docs cfg (n + 1) rest with
      | error e => rw [h2] at h; exact Except.noConfusion h
      | ok ps' =>
        rw [h2] at h
        obtain rfl : p0 :: ps' = ps := Except.ok.inj h
        rcases List.mem_cons.mp hp with hp0 | hps'
        · exact ⟨n, item, hp0.symm ▸ h1⟩
        · exact ih (n + 1) ps' h2 p hps'

/-- C3 amended: every payload of a successful `build_evidence_payloads`
run is one-pass pruned — no null anywhere, no element of any sequence is
null/empty, and no object member holds a value that was null or empty
before its own members were pruned; an object member may still be an empty
object or sequence when the emptiness arises only from the pruning of its
own members. -/
theorem payloads_one_pass_pruned (uuid ts : Nat → String) (result : AnalysisResult)
    (docs : List Document) (cfg : EvidenceStoreConfig) :
    allPayloadsOnePass (build_evidence_payloads uuid ts result docs cfg) = true := by
  cases hE : build_evidence_payloads uuid ts result docs cfg with
  | error e => rfl
  | ok ps =>
    simp only [allPayloadsOnePass, List.all_eq_true]
    intro p hp
    have hloop : ∃ n items, buildLoop uuid ts docs cfg n items = .ok ps := by
      unfold build_evidence_payloads at hE
      cases hI : evidenceItems result with
      | error e => rw [hI] at hE; exact Except.noConfusion hE
      | ok j =>
        rw [hI] at hE
        cases j with
        | arr xs => exact ⟨0, xs, hE⟩
        | null => obtain rfl : ([] : List Json) = ps := Except.ok.inj hE; simp at hp
        | bool b => obtain rfl : ([] : List Json) = ps := Except.ok.inj hE; simp at hp
        | num n => obtain rfl : ([] : List Json) = ps := Except.ok.inj hE; simp at hp
        | str s => obtain rfl : ([] : List Json) = ps := Except.ok.inj hE; simp at hp
        | obj kvs => obtain rfl : ([] : List Json) = ps := Except.ok.inj hE; simp at hp
    obtain ⟨n, items, hloop⟩ := hloop
    obtain ⟨i, item, hpf⟩ := buildLoop_mem uuid ts docs cfg n items ps hloop p hp
    obtain ⟨b, rfl⟩ := payloadFor_is_strip uuid ts docs cfg i item p hpf
    exact onePassPruned_strip_none b

/-- C2 amended: the verdict is coerced with `_parse_bool` exactly as the
claim lists (booleans directly, the case-insensitive token sets, anything
else to none), but the configured field does not short-circuit on a
coerced `false`: because Python `or` treats `False` like absence, the item
is fulfilled iff the configured field or the generic `fulfilled` field
coerces to true, and only resolves to false when both are absent,
unrecognised, or coerce to false. -/
theorem verdict_coercion_or_of_fields (chat : List Message → String)
    (jsonLoads : String → Option Json) (d : Document) (ds : List Document)
    (r : RequirementPrompt) (kvs : List (String × Json))
    (h : jsonLoads (chat (build_requirement_messages
          (concatenate_documents (d :: ds)) r.toObj (some (joinNames (d :: ds)))))
        = some (.obj kvs)) :
    firstFulfilled (analyse_requirements chat jsonLoads (d :: ds) [r])
      = some (.bool
          ((parse_bool (optToJson (lookupJ kvs
              (pyStrOr r.response_field_name "requirementMet")))).getD false
            || (parse_bool (optToJson (lookupJ kvs "fulfilled"))).getD false)) := by
  have hstep := requirementStep_obj chat jsonLoads (concatenate_documents (d :: ds))
    (joinNames (d :: ds)) r kvs (by rw [h]; rfl)
  have hres : analyse_requirements chat jsonLoads (d :: ds) [r] = .ok [stepItem kvs r] := by
    have h0 : analyse_requirements chat jsonLoads (d :: ds) [r]
        = reqLoop chat jsonLoads (concatenate_documents (d :: ds))
            (joinNames (d :: ds)) [r] := rfl
    rw [h0]
    unfold reqLoop
    rw [hstep]
    rfl
  rw [hres]
  have h1 : firstFulfilled (Except.ok [stepItem kvs r])
      = some (.bool (fulfilledOf
          (parse_bool (optToJson (lookupJ kvs
            (pyStrOr r.response_field_name "requirementMet"))))
          (parse_bool (optToJson (lookupJ kvs "fulfilled"))))) := rfl
  rw [h1, fulfilledOf_eq_or]

/-- Witness for the amended C2: a reply whose configured field is `false`
but whose generic field is `true` yields `fulfilled = true`. -/
theorem verdict_coercion_or_of_fields_witness :
    (fun _ : String => some (Json.obj [("businessContinuityPolicy", .bool false),
        ("fulfilled", .bool true)]))
      ((fun _ : List Message => "{}")
        (build_requirement_messages
          (concatenate_documents [⟨⟨"/tmp/a.txt", "a.txt", ".txt"⟩, "hello"⟩])
          (RequirementPrompt.toObj
            ⟨"E83", "Business continuity", "p", "genericDocument",
              some "businessContinuityPolicy"⟩)
          (some (joinNames [⟨⟨"/tmp/a.txt", "a.txt", ".txt"⟩, "hello"⟩]))))
      = some (.obj [("businessContinuityPolicy", .bool false), ("fulfilled", .bool true)]) ∧
    firstFulfilled (analyse_requirements (fun _ => "{}")
        (fun _ => some (.obj [("businessContinuityPolicy", .bool false),
          ("fulfilled", .bool true)]))
        [⟨⟨"/tmp/a.txt", "a.txt", ".txt"⟩, "hello"⟩]
        [{ id := "E83", name := "Business continuity", prompt := "p",
           response_field_name := some "businessContinuityPolicy" }])
      = some (.bool true) := by
  constructor
  · rfl
  · exact verdict_coercion_or_of_fields (fun _ => "{}")
      (fun _ => some (.obj [("businessContinuityPolicy", .bool false),
        ("fulfilled", .bool true)]))
      ⟨⟨"/tmp/a.txt", "a.txt", ".txt"⟩, "hello"⟩ []
      { id := "E83", name := "Business continuity", prompt := "p",
        response_field_name := some "businessContinuityPolicy" }
      [("businessContinuityPolicy", .bool false), ("fulfilled", .bool true)] rfl

/-- C5 amended: for every non-empty document sequence and every
requirement sequence, provided each model reply either fails JSON decoding
or decodes to a JSON object (the JSON-mode contract; a valid non-object
reply instead raises `AttributeError`), `analyse_requirements` returns
exactly one evidence item per input requirement, in input order: item `i`
carries requirement `i`'s id and name (an empty requirement sequence
yields an empty evidence list, not an error). -/
theorem analyse_requirements_length_order (chat : List Message → String)
    (jsonLoads : String → Option Json) (d : Document) (ds : List Document)
    (reqs : List RequirementPrompt)
    (hj : ∀ s, objOrNone (jsonLoads s) = true) :
    idsTitlesMatch (analyse_requirements chat jsonLoads (d :: ds) reqs) reqs = true :=
  reqLoop_ids_titles chat jsonLoads (concatenate_documents (d :: ds))
    (joinNames (d :: ds)) hj reqs

/-- Witness for the amended C5: one document, two requirements, an
undecodable reply for every call. -/
theorem analyse_requirements_length_order_witness :
    idsTitlesMatch (analyse_requirements (fun _ => "nonsense") (fun _ => none)
        [⟨⟨"/tmp/a.txt", "a.txt", ".txt"⟩, "hello"⟩]
        [⟨"E83", "Req A", "p1", "genericDocument", some "fieldA"⟩,
         ⟨"E84", "Req B", "p2", "genericDocument", none⟩])
      [⟨"E83", "Req A", "p1", "genericDocument", some "fieldA"⟩,
       ⟨"E84", "Req B", "p2", "genericDocument", none⟩] = true :=
  analyse_requirements_length_order (fun _ => "nonsense") (fun _ => none)
    ⟨⟨"/tmp/a.txt", "a.txt", ".txt"⟩, "hello"⟩ []
    [⟨"E83", "Req A", "p1", "genericDocument", some "fieldA"⟩,
     ⟨"E84", "Req B", "p2", "genericDocument", none⟩]
    (fun _ => rfl)

/-- C6: whenever `analyse_requirements` returns evidence items, every
item's `fulfilled` value is a JSON boolean — never null — and it is the
boolean `false` whenever no reply field coerces to a verdict: in
particular when every reply is unparsable JSON, and more generally when no
field of any decoded reply parses as a boolean token (ambiguous or missing
verdicts resolve to false). -/
theorem fulfilled_always_boolean (chat : List Message → String)
    (jsonLoads : String → Option Json) (docs : List Document)
    (reqs : List RequirementPrompt) :
    allFulfilledBool (analyse_requirements chat jsonLoads docs reqs) = true ∧
    ((∀ str j, jsonLoads str = some j →
        ∀ k v, jGetOpt j k = some v → parse_bool v = none) →
      allFulfilledFalse (analyse_requirements chat jsonLoads docs reqs) = true) ∧
    ((∀ str, jsonLoads str = none) →
      allFulfilledFalse (analyse_requirements chat jsonLoads docs reqs) = true) := by
  cases hA : analyse_requirements chat jsonLoads docs reqs with
  | error e => exact ⟨rfl, fun _ => rfl, fun _ => rfl⟩
  | ok items =>
    cases docs with
    | nil => exact absurd hA (by simp [analyse_requirements])
    | cons d ds =>
      have h0 : reqLoop chat jsonLoads (concatenate_documents (d :: ds))
          (joinNames (d :: ds)) reqs = .ok items := hA
      have hmem := reqLoop_mem_step chat jsonLoads (concatenate_documents (d :: ds))
        (joinNames (d :: ds)) reqs items h0
      have hfalse : (∀ str j, jsonLoads str = some j →
          ∀ k v, jGetOpt j k = some v → parse_bool v = none) →
          allFulfilledFalse (Except.ok items) = true := by
        intro hamb
        simp only [allFulfilledFalse, List.all_eq_true]
        intro item hm
        obtain ⟨r, hr⟩ := hmem item hm
        rw [requirementStep_fulfilled_false chat jsonLoads
          (concatenate_documents (d :: ds)) (joinNames (d :: ds)) r item hamb hr]
        rfl
      refine ⟨?_, hfalse, ?_⟩
      · simp only [allFulfilledBool, List.all_eq_true]
        intro item hm
        obtain ⟨r, hr⟩ := hmem item hm
        obtain ⟨kvs, hp, rfl⟩ := requirementStep_ok_shape chat jsonLoads
          (concatenate_documents (d :: ds)) (joinNames (d :: ds)) r item hr
        rw [stepItem_fulfilled]
      · intro hnone
        refine hfalse ?_
        intro str j hj
        rw [hnone str] at hj
        exact Option.noConfusion hj

/-- Witness for C6: a concrete run whose replies never decode yields items
whose `fulfilled` is the boolean `false`. -/
theorem fulfilled_always_boolean_witness :
    allFulfilledBool (analyse_requirements (fun _ => "not json") (fun _ => none)
        [⟨⟨"/tmp/a.txt", "a.txt", ".txt"⟩, "hello"⟩]
        [⟨"E83", "Req A", "p1", "genericDocument", some "fieldA"⟩]) = true ∧
    allFulfilledFalse (analyse_requirements (fun _ => "not json") (fun _ => none)
        [⟨⟨"/tmp/a.txt", "a.txt", ".txt"⟩, "hello"⟩]
        [⟨"E83", "Req A", "p1", "genericDocument", some "fieldA"⟩]) = true :=
  ⟨(fulfilled_always_boolean (fun _ => "not json") (fun _ => none)
      [⟨⟨"/tmp/a.txt", "a.txt", ".txt"⟩, "hello"⟩]
      [⟨"E83", "Req A", "p1", "genericDocument", some "fieldA"⟩]).1,
   (fulfilled_always_boolean (fun _ => "not json") (fun _ => none)
      [⟨⟨"/tmp/a.txt", "a.txt", ".txt"⟩, "hello"⟩]
      [⟨"E83", "Req A", "p1", "genericDocument", some "fieldA"⟩]).2.2
      (fun _ => rfl)⟩

theorem lookupJ_cons (k' : String) (w : Json) (rest : List (String × Json))
    (k : String) :
    lookupJ ((k', w) :: rest) k = if k' = k then some w else lookupJ rest k := rfl

theorem stripObj_cons (k : String) (v : Json) (rest : List (String × Json)) :
    stripObj ((k, v) :: rest)
      = if isEmptyVal v = true then stripObj rest
        else (k, strip_none v) :: stripObj rest := rfl

theorem lookupJ_append (xs ys : List (String × Json)) (k : String) :
    lookupJ (xs ++ ys) k
      = (match lookupJ xs k with
         | some v => some v
         | none => lookupJ ys k) := by
  induction xs with
  | nil => rfl
  | cons a rest ih =>
    obtain ⟨k', v'⟩ := a
    rw [List.cons_append, lookupJ_cons, lookupJ_cons]
    by_cases h : k' = k
    · rw [if_pos h, if_pos h]
    · rw [if_neg h, if_neg h]
      exact ih

theorem lookupJ_none_of_any_false (kvs : List (String × Json)) (k : String)
    (h : kvs.any (fun kv => kv.1 = k) = false) : lookupJ kvs k = none := by
  induction kvs with
  | nil => rfl
  | cons a rest ih =>
    obtain ⟨k', v'⟩ := a
    simp only [List.any_cons, Bool.or_eq_false_iff] at h
    have h1 : ¬ k' = k := by simpa using h.1
    rw [lookupJ_cons, if_neg h1]
    exact ih h.2

theorem lookupJ_map_replace_ne (kvs : List (String × Json)) (k k2 : String) (v : Json)
    (hne : ¬ k = k2) :
    lookupJ (kvs.map (fun kv => if kv.1 = k then (k, v) else kv)) k2 = lookupJ kvs k2 := by
  induction kvs with
  | nil => rfl
  | cons a rest ih =>
    obtain ⟨k', w⟩ := a
    simp only [List.map_cons]
    by_cases h : k' = k
    · rw [show (if ((k', w) : String × Json).1 = k then (k, v) else (k', w)) = (k, v)
          from if_pos h]
      rw [lookupJ_cons, lookupJ_cons, if_neg hne, if_neg (fun hh => hne (h ▸ hh))]
      exact ih
    · rw [show (if ((k', w) : String × Json).1 = k then (k, v) else (k', w)) = (k', w)
          from if_neg h]
      rw [lookupJ_cons, lookupJ_cons]
      by_cases h2 : k' = k2
      · rw [if_pos h2, if_pos h2]
      · rw [if_neg h2, if_neg h2]
        exact ih

theorem lookupJ_map_replace_found (kvs : List (String × Json)) (k : String) (v : Json)
    (hany : kvs.any (fun kv => kv.1 = k) = true) :
    lookupJ (kvs.map (fun kv => if kv.1 = k then (k, v) else kv)) k = some v := by
  induction kvs with
  | nil => simp at hany
  | cons a rest ih =>
    obtain ⟨k', w⟩ := a
    simp only [List.map_cons]
    by_cases h : k' = k
    · rw [show (if ((k', w) : String × Json).1 = k then (k, v) else (k', w)) = (k, v)
          from if_pos h]
      rw [lookupJ_cons, if_pos rfl]
    · rw [show (if ((k', w) : String × Json).1 = k then (k, v) else (k', w)) = (k', w)
          from if_neg h]
      rw [lookupJ_cons, if_neg h]
      refine ih ?_
      simpa [List.any_cons, h] using hany

theorem lookupJ_dictInsert (kvs : List (String × Json)) (k : String) (v : Json)
    (k2 : String) :
    lookupJ (dictInsert kvs k v) k2 = if k = k2 then some v else lookupJ kvs k2 := by
  unfold dictInsert
  by_cases hany : kvs.any (fun kv => kv.1 = k) = true
  · rw [if_pos hany]
    by_cases hk : k = k2
    · subst hk
      rw [if_pos rfl]
      exact lookupJ_map_replace_found kvs k v hany
    · rw [if_neg hk]
      exact lookupJ_map_replace_ne kvs k k2 v hk
  · rw [if_neg hany]
    rw [lookupJ_append]
    by_cases hk : k = k2
    · subst hk
      rw [lookupJ_none_of_any_false kvs k (Bool.eq_false_iff.mpr hany)]
      simp [lookupJ]
    · rw [if_neg hk]
      cases hl : lookupJ kvs k2 with
      | some w => simp
      | none => simp [lookupJ, hk]

theorem dictInsert_ne_nil (kvs : List (String × Json)) (k : String) (v : Json) :
    dictInsert kvs k v ≠ [] := by
  unfold dictInsert
  by_cases hany : kvs.any (fun kv => kv.1 = k) = true
  · rw [if_pos hany]
    cases kvs with
    | nil => simp at hany
    | cons a rest => simp
  · rw [if_neg hany]
    simp

theorem isEmptyVal_obj_of_ne_nil (kvs : List (String × Json)) (h : kvs ≠ []) :
    isEmptyVal (.obj kvs) = false := by
  cases kvs with
  | nil => exact absurd rfl h
  | cons a rest => rfl

theorem lookupJ_stripObj (kvs : List (String × Json)) (k : String) (v : Json)
    (h : lookupJ kvs k = some v) (hv : isEmptyVal v = false) :
    lookupJ (stripObj kvs) k = some (strip_none v) := by
  induction kvs with
  | nil => exact absurd h (by simp [lookupJ])
  | cons a rest ih =>
    obtain ⟨k', w⟩ := a
    by_cases hk : k' = k
    · subst hk
      rw [lookupJ_cons, if_pos rfl] at h
      obtain rfl : w = v := Option.some.inj h
      rw [stripObj_cons, if_neg (by simp [hv])]
      rw [lookupJ_cons, if_pos rfl]
    · rw [lookupJ_cons, if_neg hk] at h
      rw [stripObj_cons]
      by_cases hw : isEmptyVal w = true
      · rw [if_pos hw]
        exact ih h
      · rw [if_neg hw]
        rw [lookupJ_cons, if_neg hk]
        exact ih h

/-- Walking `resource → genericDocument → dataLocation → localDataLocation
→ path` through a stripped evidence body: the four scalar header fields
survive pruning, and a `dataLocation` entry of the generic-document dict
survives with its path intact. -/
theorem walk_strip_dataLocation (a b c dd : String) (gdL : List (String × Json))
    (p : String) (hgd : gdL ≠ [])
    (hdl : lookupJ gdL "dataLocation"
      = some (Json.obj [("localDataLocation", Json.obj [("path", Json.str p)])])) :
    jWalk (strip_none (Json.obj
        [("id", .str a), ("timestamp", .str b), ("targetOfEvaluationId", .str c),
         ("toolId", .str dd),
         ("resource", .obj [("genericDocument", .obj gdL)]),
         ("experimentalRelatedResourceIds", .arr [])]))
      ["resource", "genericDocument", "dataLocation", "localDataLocation", "path"]
      = some (.str p) := by
  cases gdL with
  | nil => exact absurd rfl hgd
  | cons g gs =>
    have hstr := lookupJ_stripObj (g :: gs) "dataLocation" _ hdl (by rfl)
    have key : jWalk (strip_none (Json.obj
        [("id", .str a), ("timestamp", .str b), ("targetOfEvaluationId", .str c),
         ("toolId", .str dd),
         ("resource", .obj [("genericDocument", .obj (g :: gs))]),
         ("experimentalRelatedResourceIds", .arr [])]))
      ["resource", "genericDocument", "dataLocation", "localDataLocation", "path"]
        = (match lookupJ (stripObj (g :: gs)) "dataLocation" with
           | some v => jWalk v ["localDataLocation", "path"]
           | none => none) := rfl
    rw [key, hstr]
    rfl

theorem buildLoop_index (uuid ts : Nat → String) (docs : List Document)
    (cfg : EvidenceStoreConfig) :
    ∀ (items : List Json) (n : Nat) (ps : List Json),
      buildLoop uuid ts docs cfg n items = .ok ps →
      ps.length = items.length ∧
        ∀ i (hi : i < items.length) (hp : i < ps.length),
          payloadFor uuid ts docs cfg (n + i) (items.get ⟨i, hi⟩)
            = .ok (ps.get ⟨i, hp⟩) := by
  intro items
  induction items with
  | nil =>
    intro n ps h
    obtain rfl : ([] : List Json) = ps := Except.ok.inj h
    exact ⟨rfl, fun i hi => absurd hi (Nat.not_lt_zero i)⟩
  | cons item rest ih =>
    intro n ps h
    rw [buildLoop] at h
    cases h1 : payloadFor uuid ts docs cfg n item with
    | error e => rw [h1] at h; exact Except.noConfusion h
    | ok p0 =>
      rw [h1] at h
      cases h2 : buildLoop uuid ts docs cfg (n + 1) rest with
      | error e => rw [h2] at h; exact Except.noConfusion h
      | ok ps' =>
        rw [h2] at h
        obtain rfl : p0 :: ps' = ps := Except.ok.inj h
        obtain ⟨hlen, hidx⟩ := ih (n + 1) ps' h2
        refine ⟨by simp [hlen], ?_⟩
        intro i hi hp
        cases i with
        | zero => simpa using h1
        | succ i =>
          have hi' : i < rest.length := Nat.lt_of_succ_lt_succ hi
          have hp' : i < ps'.length := Nat.lt_of_succ_lt_succ hp
          have harith : n + (i + 1) = (n + 1) + i := by omega
          rw [harith]
          exact hidx i hi' hp'

theorem payloadFor_docPath (uuid ts : Nat → String) (d : Document)
    (ds : List Document) (cfg : EvidenceStoreConfig) (idx : Nat) (item p : Json)
    (hrf : respFieldOf item ≠ "dataLocation")
    (h : payloadFor uuid ts (d :: ds) cfg idx item = .ok p) :
    jWalk p ["resource", "genericDocument", "dataLocation", "localDataLocation", "path"]
      = some (.str (((d :: ds).get ⟨idx % (d :: ds).length,
          Nat.mod_lt _ (Nat.succ_pos _)⟩).path.str)) := by
  cases item with
  | null =>
    unfold payloadFor at h
    rw [show evidenceBody uuid ts (d :: ds) cfg idx .null
        = .error (.attributeError "get") from rfl] at h
    exact Except.noConfusion h
  | bool b =>
    unfold payloadFor at h
    rw [show evidenceBody uuid ts (d :: ds) cfg idx (.bool b)
        = .error (.attributeError "get") from rfl] at h
    exact Except.noConfusion h
  | num n =>
    unfold payloadFor at h
    rw [show evidenceBody uuid ts (d :: ds) cfg idx (.num n)
        = .error (.attributeError "get") from rfl] at h
    exact Except.noConfusion h
  | str s =>
    unfold payloadFor at h
    rw [show evidenceBody uuid ts (d :: ds) cfg idx (.str s)
        = .error (.attributeError "get") from rfl] at h
    exact Except.noConfusion h
  | arr xs =>
    unfold payloadFor at h
    rw [show evidenceBody uuid ts (d :: ds) cfg idx (.arr xs)
        = .error (.attributeError "get") from rfl] at h
    exact Except.noConfusion h
  | obj ikvs =>
    unfold payloadFor at h
    rw [show evidenceBody uuid ts (d :: ds) cfg idx (.obj ikvs)
        = .ok (bodyOf uuid ts ((d :: ds).get ⟨idx % (d :: ds).length,
            Nat.mod_lt _ (Nat.succ_pos _)⟩) cfg idx ikvs) from rfl] at h
    obtain rfl : strip_none (bodyOf uuid ts ((d :: ds).get ⟨idx % (d :: ds).length,
        Nat.mod_lt _ (Nat.succ_pos _)⟩) cfg idx ikvs) = p := Except.ok.inj h
    have hrf' : ¬ pyKeyStr (jsonOr (optToJson (lookupJ ikvs "responseField"))
        (.str "requirementMet")) = "dataLocation" := hrf
    have hdl : lookupJ (pyDictLit
        [("id", .str (cfg.tool_id ++ ":document:" ++ toString idx)),
         ("name", .str ((d :: ds).get ⟨idx % (d :: ds).length,
            Nat.mod_lt _ (Nat.succ_pos _)⟩).name),
         ("description", jsonOr (optToJson (lookupJ ikvs "title")) (.str "Document evidence")),
         ("filetype", .str (pyLstripDot ((d :: ds).get ⟨idx % (d :: ds).length,
            Nat.mod_lt _ (Nat.succ_pos _)⟩).path.suffix)),
         ("dataLocation", .obj [("localDataLocation", .obj [("path",
            .str ((d :: ds).get ⟨idx % (d :: ds).length,
              Nat.mod_lt _ (Nat.succ_pos _)⟩).path.str)])]),
         (pyKeyStr (jsonOr (optToJson (lookupJ ikvs "responseField"))
            (.str "requirementMet")), optToJson (lookupJ ikvs "fulfilled")),
         ("raw",
          if truthy (jsonOr (optToJson (lookupJ ikvs "citation")) (.str "")) then
            .str (if truthy (jsonOr (optToJson (lookupJ ikvs "snippet"))
                    (jsonOr (optToJson (lookupJ ikvs "citation"))
                      (jsonOr (optToJson (lookupJ ikvs "evidence"))
                        (jsonOr (optToJson (lookupJ ikvs "statement")) (.str ""))))) then
                    pyStr (jsonOr (optToJson (lookupJ ikvs "snippet"))
                      (jsonOr (optToJson (lookupJ ikvs "citation"))
                        (jsonOr (optToJson (lookupJ ikvs "evidence"))
                          (jsonOr (optToJson (lookupJ ikvs "statement")) (.str "")))))
                      ++ "\nCitation: "
                      ++ pyStr (jsonOr (optToJson (lookupJ ikvs "citation")) (.str ""))
                  else
                    "Citation: "
                      ++ pyStr (jsonOr (optToJson (lookupJ ikvs "citation")) (.str "")))
          else jsonOr (optToJson (lookupJ ikvs "snippet"))
                 (jsonOr (optToJson (lookupJ ikvs "citation"))
                   (jsonOr (optToJson (lookupJ ikvs "evidence"))
                     (jsonOr (optToJson (lookupJ ikvs "statement")) (.str "")))))])
        "dataLocation"
        = some (Json.obj [("localDataLocation", Json.obj [("path",
            Json.str ((d :: ds).get ⟨idx % (d :: ds).length,
              Nat.mod_lt _ (Nat.succ_pos _)⟩).path.str)])]) := by
      rw [show ∀ e1 e2 e3 e4 e5 rfk rfv rawv, pyDictLit
          [("id", e1), ("name", e2), ("description", e3), ("filetype", e4),
           ("dataLocation", e5), (rfk, rfv), ("raw", rawv)]
          = dictInsert (dictInsert
              [("id", e1), ("name", e2), ("description", e3), ("filetype", e4),
               ("dataLocation", e5)] rfk rfv) "raw" rawv
          from fun e1 e2 e3 e4 e5 rfk rfv rawv => rfl]
      rw [lookupJ_dictInsert, if_neg (by decide)]
      rw [lookupJ_dictInsert, if_neg hrf']
      rfl
    exact walk_strip_dataLocation (uuid idx) (ts idx) cfg.target_of_evaluation_id
      cfg.tool_id _ _ (dictInsert_ne_nil _ _ _) hdl

/-- C8: when the payload build succeeds, evidence item `i` is associated
with document `i mod d`: its payload's data-location path is that
document's path (scoped to items whose `responseField` does not collide
with the literal `dataLocation` key of the generic-document dict, which
Python's dict construction would overwrite). -/
theorem payload_document_wraparound (uuid ts : Nat → String)
    (result : AnalysisResult) (d : Document) (ds : List Document)
    (cfg : EvidenceStoreConfig) (items : List Json)
    (hEv : evidenceItems result = .ok (.arr items))
    (hrf : items.all (fun it => respFieldOf it != "dataLocation") = true)
    (hOk : isOkE (build_evidence_payloads uuid ts result (d :: ds) cfg) = true) :
    ∀ i, i < items.length →
      payloadFieldAt (build_evidence_payloads uuid ts result (d :: ds) cfg) i
          ["resource", "genericDocument", "dataLocation", "localDataLocation", "path"]
        = some (.str (((d :: ds).get ⟨i % (d :: ds).length,
            Nat.mod_lt _ (Nat.succ_pos _)⟩).path.str)) := by
  intro i hi
  have hb : build_evidence_payloads uuid ts result (d :: ds) cfg
      = buildLoop uuid ts (d :: ds) cfg 0 items := by
    unfold build_evidence_payloads
    rw [hEv]
  cases hL : buildLoop uuid ts (d :: ds) cfg 0 items with
  | error e =>
    rw [hb, hL] at hOk
    exact absurd hOk (by simp [isOkE])
  | ok ps =>
    obtain ⟨hlen, hidx⟩ := buildLoop_index uuid ts (d :: ds) cfg items 0 ps hL
    have hp : i < ps.length := by rw [hlen]; exact hi
    have hstep := hidx i hi hp
    rw [Nat.zero_add] at hstep
    have hrf_i : respFieldOf (items.get ⟨i, hi⟩) ≠ "dataLocation" := by
      have hmem : items.get ⟨i, hi⟩ ∈ items := items.get_mem i hi
      have := List.all_eq_true.mp hrf _ hmem
      simpa using this
    have hwalk := payloadFor_docPath uuid ts d ds cfg i (items.get ⟨i, hi⟩)
      (ps.get ⟨i, hp⟩) hrf_i hstep
    rw [hb, hL]
    have hred : payloadFieldAt (Except.ok ps) i
        ["resource", "genericDocument", "dataLocation", "localDataLocation", "path"]
        = (match ps.get? i with
           | some p => jWalk p
              ["resource", "genericDocument", "dataLocation", "localDataLocation", "path"]
           | none => none) := rfl
    rw [hred, List.get?_eq_get hp]
    exact hwalk

/-- Witness for C8: two documents and three evidence items map payload
indices 0, 1, 2 to documents 0, 1, 0. -/
theorem payload_document_wraparound_witness :
    (payloadFieldAt (build_evidence_payloads (fun _ => "u") (fun _ => "t")
        ⟨.obj [("evidence", .arr [.obj [], .obj [], .obj []])], "", []⟩
        [⟨⟨"policy.txt", "policy.txt", ".txt"⟩, "p"⟩,
         ⟨⟨"report.pdf", "report.pdf", ".pdf"⟩, "r"⟩]
        ⟨"http://b", "http://b/tok", "ci", "cs", "tool", "toe", "/ev"⟩)
      0 ["resource", "genericDocument", "dataLocation", "localDataLocation", "path"]
      = some (.str "policy.txt")) ∧
    (payloadFieldAt (build_evidence_payloads (fun _ => "u") (fun _ => "t")
        ⟨.obj [("evidence", .arr [.obj [], .obj [], .obj []])], "", []⟩
        [⟨⟨"policy.txt", "policy.txt", ".txt"⟩, "p"⟩,
         ⟨⟨"report.pdf", "report.pdf", ".pdf"⟩, "r"⟩]
        ⟨"http://b", "http://b/tok", "ci", "cs", "tool", "toe", "/ev"⟩)
      1 ["resource", "genericDocument", "dataLocation", "localDataLocation", "path"]
      = some (.str "report.pdf")) ∧
    (payloadFieldAt (build_evidence_payloads (fun _ => "u") (fun _ => "t")
        ⟨.obj [("evidence", .arr [.obj [], .obj [], .obj []])], "", []⟩
        [⟨⟨"policy.txt", "policy.txt", ".txt"⟩, "p"⟩,
         ⟨⟨"report.pdf", "report.pdf", ".pdf"⟩, "r"⟩]
        ⟨"http://b", "http://b/tok", "ci", "cs", "tool", "toe", "/ev"⟩)
      2 ["resource", "genericDocument", "dataLocation", "localDataLocation", "path"]
      = some (.str "policy.txt")) :=
  ⟨payload_document_wraparound (fun _ => "u") (fun _ => "t")
      ⟨.obj [("evidence", .arr [.obj [], .obj [], .obj []])], "", []⟩
      ⟨⟨"policy.txt", "policy.txt", ".txt"⟩, "p"⟩
      [⟨⟨"report.pdf", "report.pdf", ".pdf"⟩, "r"⟩]
      ⟨"http://b", "http://b/tok", "ci", "cs", "tool", "toe", "/ev"⟩
      [.obj [], .obj [], .obj []] rfl rfl rfl 0 (by decide),
   payload_document_wraparound (fun _ => "u") (fun _ => "t")
      ⟨.obj [("evidence", .arr [.obj [], .obj [], .obj []])], "", []⟩
      ⟨⟨"policy.txt", "policy.txt", ".txt"⟩, "p"⟩
      [⟨⟨"report.pdf", "report.pdf", ".pdf"⟩, "r"⟩]
      ⟨"http://b", "http://b/tok", "ci", "cs", "tool", "toe", "/ev"⟩
      [.obj [], .obj [], .obj []] rfl rfl rfl 1 (by decide),
   payload_document_wraparound (fun _ => "u") (fun _ => "t")
      ⟨.obj [("evidence", .arr [.obj [], .obj [], .obj []])], "", []⟩
      ⟨⟨"policy.txt", "policy.txt", ".txt"⟩, "p"⟩
      [⟨⟨"report.pdf", "report.pdf", ".pdf"⟩, "r"⟩]
      ⟨"http://b", "http://b/tok", "ci", "cs", "tool", "toe", "/ev"⟩
      [.obj [], .obj [], .obj []] rfl rfl rfl 2 (by decide)⟩

/-- C4 amended: `raw` is built from the EFFECTIVE snippet — the first
non-empty of the item's `snippet`, `citation`, `evidence` and `statement`
fields (evidence_store.py:85-91) — not from the `snippet` field alone:
`raw` equals the effective snippet when the citation is empty (so a lone
`evidence`/`statement` field leaks into `raw`), and equals
`"<effective snippet>\nCitation: <citation>"` when the citation is
non-empty (in particular, with a citation and no snippet,
`raw = "<citation>\nCitation: <citation>"`, and the claimed
`"Citation: <citation>"` shape is unreachable); it is the empty string
only when all four fields are empty. -/
theorem raw_merge_effective_snippet (uuid ts : Nat → String) (doc : Document)
    (cfg : EvidenceStoreConfig) (s c e st : String) :
    payloadFieldAt (build_evidence_payloads uuid ts
        ⟨.obj [("evidence", .arr [.obj [("snippet", .str s), ("citation", .str c),
          ("evidence", .str e), ("statement", .str st)]])], "", []⟩
        [doc] cfg) 0 ["resource", "genericDocument", "raw"]
      = some (.str
          (let eff := pyStrOr (some s) (pyStrOr (some c) (pyStrOr (some e) (pyStrOr (some st) "")))
           if c = "" then eff else eff ++ "\nCitation: " ++ c)) := by
  by_cases hs : s = "" <;> by_cases hc : c = "" <;> by_cases he : e = "" <;>
    by_cases hst : st = "" <;>
    simp [build_evidence_payloads, evidenceItems, pyGet, lookupJ, optToJson, jsonOr,
      truthy, buildLoop, payloadFor, evidenceBody, pyKeyStr, pyDictLit, dictInsert,
      strip_none, stripObj, stripArr, isEmptyVal, payloadFieldAt, jWalk, jGetOpt,
      pyStr, pyStrOr, hs, hc, he, hst]

/-- C9: for a client with no cached token: (1) any of the listed token
failures (transport error, HTTP ≥ 400 such as 401, missing/empty
access-token field) makes `send_evidence` fail with the store's
authentication error, and the only HTTP call performed is the token
request — no evidence POST is attempted; (2) on a successful token request
the token is cached in the client state and the payload is POSTed with a
bearer header, after the token request; (3) a cached (truthy) token is
reused for the client's lifetime: no further token request is made. -/
theorem send_evidence_auth_flow
    (cfg : EvidenceStoreConfig) (tokenResp evResp : HttpOutcome) (payload : Json) :
    (tokenAuthFailure tokenResp →
      isStoreError (send_evidence cfg ⟨none⟩ tokenResp evResp payload).1 = true ∧
      (send_evidence cfg ⟨none⟩ tokenResp evResp payload).2.2
        = [.tokenRequest cfg.token_endpoint cfg.client_id cfg.client_secret]) ∧
    (∀ r tok kvs, tokenResp = .ok r → r.status_code < 400 →
      r.jsonBody = some (.obj kvs) → lookupJ kvs "access_token" = some tok →
      truthy tok = true →
      (send_evidence cfg ⟨none⟩ tokenResp evResp payload).2.1.token = some tok ∧
      (send_evidence cfg ⟨none⟩ tokenResp evResp payload).2.2
        = [.tokenRequest cfg.token_endpoint cfg.client_id cfg.client_secret,
           .evidencePost (evidence_url cfg) ("Bearer " ++ pyStr tok) payload]) ∧
    (∀ tok, truthy tok = true →
      (send_evidence cfg ⟨some tok⟩ tokenResp evResp payload).2.1.token = some tok ∧
      (send_evidence cfg ⟨some tok⟩ tokenResp evResp payload).2.2
        = [.evidencePost (evidence_url cfg) ("Bearer " ++ pyStr tok) payload]) := by
  refine ⟨?_, ?_, ?_⟩
  · intro hfail
    cases tokenResp with
    | error e =>
      simp [send_evidence, get_token, get_token_fetch, isStoreError]
    | ok r =>
      by_cases hs : 400 ≤ r.status_code
      · simp [send_evidence, get_token, get_token_fetch, hs, isStoreError]
      · rcases hfail with h400 | ⟨kvs, hjson, hfalsy⟩
        · exact absurd h400 hs
        · simp [send_evidence, get_token, get_token_fetch, hs, hjson, pyGet,
            hfalsy, isStoreError]
  · intro r tok kvs h1 h2 h3 h4 h5
    subst h1
    have hs : ¬ 400 ≤ r.status_code := Nat.not_le.mpr h2
    cases evResp with
    | error e =>
      simp [send_evidence, get_token, get_token_fetch, hs, h3, pyGet, h4,
        optToJson, h5]
    | ok r2 =>
      by_cases hs2 : 400 ≤ r2.status_code
      · simp [send_evidence, get_token, get_token_fetch, hs, h3, pyGet, h4,
          optToJson, h5, hs2]
      · by_cases h204 : r2.status_code = 204
        · simp [send_evidence, get_token, get_token_fetch, hs, h3, pyGet, h4,
            optToJson, h5, hs2, h204]
        · cases h2b : r2.jsonBody <;>
            simp [send_evidence, get_token, get_token_fetch, hs, h3, pyGet, h4,
              optToJson, h5, hs2, h204, h2b]
  · intro tok htok
    cases evResp with
    | error e => simp [send_evidence, get_token, htok]
    | ok r2 =>
      by_cases hs2 : 400 ≤ r2.status_code
      · simp [send_evidence, get_token, htok, hs2]
      · by_cases h204 : r2.status_code = 204
        · simp [send_evidence, get_token, htok, hs2, h204]
        · cases h2b : r2.jsonBody <;> simp [send_evidence, get_token, htok, hs2, h204, h2b]

/-- Witness for C9: a 401 token endpoint yields the auth failure with no
evidence POST; a 200 token response with `access_token` caches the token
and POSTs with a bearer header. -/
theorem send_evidence_auth_flow_witness :
    (isStoreError (send_evidence ⟨"http://b", "http://b/tok", "ci", "cs", "tool", "toe", "/ev"⟩
        ⟨none⟩ (.ok ⟨401, "unauthorized", none⟩) (.ok ⟨200, "", some (.obj [])⟩)
        (.obj [])).1 = true ∧
      (send_evidence ⟨"http://b", "http://b/tok", "ci", "cs", "tool", "toe", "/ev"⟩
        ⟨none⟩ (.ok ⟨401, "unauthorized", none⟩) (.ok ⟨200, "", some (.obj [])⟩)
        (.obj [])).2.2 = [.tokenRequest "http://b/tok" "ci" "cs"]) ∧
    ((send_evidence ⟨"http://b", "http://b/tok", "ci", "cs", "tool", "toe", "/ev"⟩
        ⟨none⟩ (.ok ⟨200, "", some (.obj [("access_token", .str "tok123")])⟩)
        (.ok ⟨204, "", none⟩) (.obj [])).2.1.token = some (.str "tok123") ∧
      (send_evidence ⟨"http://b", "http://b/tok", "ci", "cs", "tool", "toe", "/ev"⟩
        ⟨none⟩ (.ok ⟨200, "", some (.obj [("access_token", .str "tok123")])⟩)
        (.ok ⟨204, "", none⟩) (.obj [])).2.2
        = [.tokenRequest "http://b/tok" "ci" "cs",
           .evidencePost "http://b/ev" "Bearer tok123" (.obj [])]) ∧
    (send_evidence ⟨"http://b", "http://b/tok", "ci", "cs", "tool", "toe", "/ev"⟩
        ⟨some (.str "tok123")⟩ (.ok ⟨401, "unauthorized", none⟩) (.ok ⟨204, "", none⟩)
        (.obj [])).2.2
      = [.evidencePost "http://b/ev" "Bearer tok123" (.obj [])] := by
  refine ⟨?_, ?_, ?_⟩
  · exact (send_evidence_auth_flow ⟨"http://b", "http://b/tok", "ci", "cs", "tool", "toe", "/ev"⟩
      (.ok ⟨401, "unauthorized", none⟩) (.ok ⟨200, "", some (.obj [])⟩) (.obj [])).1
      (Or.inl (by decide))
  · exact (send_evidence_auth_flow ⟨"http://b", "http://b/tok", "ci", "cs", "tool", "toe", "/ev"⟩
      (.ok ⟨200, "", some (.obj [("access_token", .str "tok123")])⟩)
      (.ok ⟨204, "", none⟩) (.obj [])).2.1
      ⟨200, "", some (.obj [("access_token", .str "tok123")])⟩ (.str "tok123")
      [("access_token", .str "tok123")] rfl (by decide) rfl rfl rfl
  · exact ((send_evidence_auth_flow ⟨"http://b", "http://b/tok", "ci", "cs", "tool", "toe", "/ev"⟩
      (.ok ⟨401, "unauthorized", none⟩) (.ok ⟨204, "", none⟩) (.obj [])).2.2
      (.str "tok123") rfl).2

end DocAnalyser
